import Mathlib

/-
  Verification of the CVRF evaluation and document-model code
  (src/CVRF/cvrf_eval.c) against its natural-language specification.

  The C code is shallowly embedded: C structs become Lean structures,
  nullable C strings become Option String, oscap_stringlist becomes
  List String, oscap_list becomes List, and functions that mutate a
  structure in place and return an int status are embedded as functions
  returning the status (Int) paired with the updated value.  Serialized
  xmlNode trees are embedded by the Xml inductive below.  Where the C
  would dereference a NULL pointer (undefined behavior), theorems carry
  an explicit hypothesis excluding that input.
-/

/-- A tagged element node: local name, attributes in the order they were
added, optional text content, children in document order.  Namespace
declarations (xmlNewNs) are not modeled; no claim concerns them. -/
inductive Xml : Type where
  | elem (name : String) (attrs : List (String × String))
         (text : Option String) (children : List Xml)

def Xml.name : Xml → String
  | .elem n _ _ _ => n

def Xml.attrs : Xml → List (String × String)
  | .elem _ a _ _ => a

def Xml.text : Xml → Option String
  | .elem _ _ t _ => t

def Xml.children : Xml → List Xml
  | .elem _ _ _ c => c

/-- Mirrors cvrf_element_add_attribute: an attribute is added only when its
value is non-NULL. -/
def cvrf_element_add_attribute (attr_name : String) (attr_value : Option String) :
    List (String × String) :=
  match attr_value with
  | none => []
  | some v => [(attr_name, v)]

/-- Mirrors cvrf_element_to_dom: returns NULL (none) when the element value
is NULL, otherwise a fresh node holding the value as text. -/
def cvrf_element_to_dom (elm_name : String) (elm_value : Option String) : Option Xml :=
  match elm_value with
  | none => none
  | some v => some (Xml.elem elm_name [] (some v) [])

/-- Mirrors cvrf_element_add_child: the child list gains a node only when the
element value is non-NULL. -/
def cvrf_element_add_child (elm_name : String) (elm_value : Option String) : List Xml :=
  match cvrf_element_to_dom elm_name elm_value with
  | none => []
  | some x => [x]

/-- Mirrors cvrf_element_add_stringlist: one text node per string, emitted
unconditionally for each element of the list (an empty list emits nothing). -/
def cvrf_element_add_stringlist (list : List String) (tag_name : String) : List Xml :=
  list.map (fun s => Xml.elem tag_name [] (some s) [])

/-- Mirrors cvrf_element_add_ordinal: the Ordinal attribute printed with %d. -/
def cvrf_element_add_ordinal (ordinal : Int) : List (String × String) :=
  [("Ordinal", toString ordinal)]

/- ------------------------------------------------------------------ -/
/- Enumerations.                                                       -/
/- The enum types and their string tables live in cvrf_enumeration.c / -/
/- cvrf_priv.h, outside the provided source slice; only the            -/
/- constructors that cvrf_eval.c itself mentions are load-bearing.     -/
/- ------------------------------------------------------------------ -/

/-- Branch type attribute.  The constructors CVRF_BRANCH_UNKNOWN,
CVRF_BRANCH_PRODUCT_FAMILY and CVRF_BRANCH_PRODUCT_VERSION appear in the
provided source; remaining variants of the C enum are collapsed into
CVRF_BRANCH_PRODUCT_NAME, which the provided code never distinguishes. -/
inductive cvrf_branch_type_t : Type where
  | CVRF_BRANCH_UNKNOWN
  | CVRF_BRANCH_PRODUCT_FAMILY
  | CVRF_BRANCH_PRODUCT_NAME
  | CVRF_BRANCH_PRODUCT_VERSION
deriving DecidableEq

/-- Modelled from the spec: enumeration values are resolved through a
string-to-enum lookup table with an explicit UNKNOWN fallback; the table
itself (cvrf_enumeration.c) is outside the provided slice. -/
def cvrf_branch_type_get_text : cvrf_branch_type_t → Option String
  | .CVRF_BRANCH_UNKNOWN => none
  | .CVRF_BRANCH_PRODUCT_FAMILY => some "Product Family"
  | .CVRF_BRANCH_PRODUCT_NAME => some "Product Name"
  | .CVRF_BRANCH_PRODUCT_VERSION => some "Product Version"

inductive cvrf_relationship_type_t : Type where
  | CVRF_RELATIONSHIP_UNKNOWN
  | CVRF_RELATIONSHIP_DEFAULT_COMPONENT_OF
  | CVRF_RELATIONSHIP_OPTIONAL_COMPONENT_OF
  | CVRF_RELATIONSHIP_EXTERNAL_COMPONENT_OF
  | CVRF_RELATIONSHIP_INSTALLED_ON
  | CVRF_RELATIONSHIP_INSTALLED_WITH
deriving DecidableEq

/-- Modelled from the spec: string table with UNKNOWN fallback, table source
outside the provided slice. -/
def cvrf_relationship_type_get_text : cvrf_relationship_type_t → Option String
  | .CVRF_RELATIONSHIP_UNKNOWN => none
  | .CVRF_RELATIONSHIP_DEFAULT_COMPONENT_OF => some "Default Component Of"
  | .CVRF_RELATIONSHIP_OPTIONAL_COMPONENT_OF => some "Optional Component Of"
  | .CVRF_RELATIONSHIP_EXTERNAL_COMPONENT_OF => some "External Component Of"
  | .CVRF_RELATIONSHIP_INSTALLED_ON => some "Installed On"
  | .CVRF_RELATIONSHIP_INSTALLED_WITH => some "Installed With"

inductive cvrf_remediation_type_t : Type where
  | CVRF_REMEDIATION_UNKNOWN
  | CVRF_REMEDIATION_WORKAROUND
  | CVRF_REMEDIATION_MITIGATION
  | CVRF_REMEDIATION_VENDOR_FIX
  | CVRF_REMEDIATION_NONE_AVAILABLE
  | CVRF_REMEDIATION_WILL_NOT_FIX
deriving DecidableEq

/-- Modelled from the spec: string table with UNKNOWN fallback, table source
outside the provided slice. -/
def cvrf_remediation_type_get_text : cvrf_remediation_type_t → Option String
  | .CVRF_REMEDIATION_UNKNOWN => none
  | .CVRF_REMEDIATION_WORKAROUND => some "Workaround"
  | .CVRF_REMEDIATION_MITIGATION => some "Mitigation"
  | .CVRF_REMEDIATION_VENDOR_FIX => some "Vendor Fix"
  | .CVRF_REMEDIATION_NONE_AVAILABLE => some "None Available"
  | .CVRF_REMEDIATION_WILL_NOT_FIX => some "Will Not Fix"

/-- Modelled from the spec: the Type attribute of a Remediation element is
resolved through the same table, any unrecognized or absent value mapping
to the UNKNOWN variant. -/
def cvrf_remediation_type_from_text (s : Option String) : cvrf_remediation_type_t :=
  match s with
  | some "Workaround" => .CVRF_REMEDIATION_WORKAROUND
  | some "Mitigation" => .CVRF_REMEDIATION_MITIGATION
  | some "Vendor Fix" => .CVRF_REMEDIATION_VENDOR_FIX
  | some "None Available" => .CVRF_REMEDIATION_NONE_AVAILABLE
  | some "Will Not Fix" => .CVRF_REMEDIATION_WILL_NOT_FIX
  | _ => .CVRF_REMEDIATION_UNKNOWN

inductive cvrf_threat_type_t : Type where
  | CVRF_THREAT_UNKNOWN
  | CVRF_THREAT_IMPACT
  | CVRF_THREAT_EXPLOIT_STATUS
  | CVRF_THREAT_TARGET_SET
deriving DecidableEq

/-- Modelled from the spec: string table with UNKNOWN fallback, table source
outside the provided slice. -/
def cvrf_threat_type_get_text : cvrf_threat_type_t → Option String
  | .CVRF_THREAT_UNKNOWN => none
  | .CVRF_THREAT_IMPACT => some "Impact"
  | .CVRF_THREAT_EXPLOIT_STATUS => some "Exploit Status"
  | .CVRF_THREAT_TARGET_SET => some "Target Set"

inductive cvrf_product_status_type_t : Type where
  | CVRF_PRODUCT_STATUS_UNKNOWN
  | CVRF_PRODUCT_STATUS_FIRST_AFFECTED
  | CVRF_PRODUCT_STATUS_KNOWN_AFFECTED
  | CVRF_PRODUCT_STATUS_KNOWN_NOT_AFFECTED
  | CVRF_PRODUCT_STATUS_FIRST_FIXED
  | CVRF_PRODUCT_STATUS_FIXED
  | CVRF_PRODUCT_STATUS_RECOMMENDED
  | CVRF_PRODUCT_STATUS_LAST_AFFECTED
deriving DecidableEq

/-- Modelled from the spec: string table with UNKNOWN fallback, table source
outside the provided slice. -/
def cvrf_product_status_type_get_text : cvrf_product_status_type_t → Option String
  | .CVRF_PRODUCT_STATUS_UNKNOWN => none
  | .CVRF_PRODUCT_STATUS_FIRST_AFFECTED => some "First Affected"
  | .CVRF_PRODUCT_STATUS_KNOWN_AFFECTED => some "Known Affected"
  | .CVRF_PRODUCT_STATUS_KNOWN_NOT_AFFECTED => some "Known Not Affected"
  | .CVRF_PRODUCT_STATUS_FIRST_FIXED => some "First Fixed"
  | .CVRF_PRODUCT_STATUS_FIXED => some "Fixed"
  | .CVRF_PRODUCT_STATUS_RECOMMENDED => some "Recommended"
  | .CVRF_PRODUCT_STATUS_LAST_AFFECTED => some "Last Affected"

inductive cvrf_involvement_status_type_t : Type where
  | CVRF_INVOLVEMENT_UNKNOWN
  | CVRF_INVOLVEMENT_OPEN
  | CVRF_INVOLVEMENT_DISPUTED
  | CVRF_INVOLVEMENT_IN_PROGRESS
  | CVRF_INVOLVEMENT_COMPLETED
  | CVRF_INVOLVEMENT_CONTACT_ATTEMPTED
  | CVRF_INVOLVEMENT_NOT_CONTACTED
deriving DecidableEq

/-- Modelled from the spec: string table with UNKNOWN fallback, table source
outside the provided slice. -/
def cvrf_involvement_status_type_get_text : cvrf_involvement_status_type_t → Option String
  | .CVRF_INVOLVEMENT_UNKNOWN => none
  | .CVRF_INVOLVEMENT_OPEN => some "Open"
  | .CVRF_INVOLVEMENT_DISPUTED => some "Disputed"
  | .CVRF_INVOLVEMENT_IN_PROGRESS => some "In Progress"
  | .CVRF_INVOLVEMENT_COMPLETED => some "Completed"
  | .CVRF_INVOLVEMENT_CONTACT_ATTEMPTED => some "Contact Attempted"
  | .CVRF_INVOLVEMENT_NOT_CONTACTED => some "Not Contacted"

inductive cvrf_doc_publisher_type_t : Type where
  | CVRF_DOC_PUBLISHER_UNKNOWN
  | CVRF_DOC_PUBLISHER_VENDOR
  | CVRF_DOC_PUBLISHER_DISCOVERER
  | CVRF_DOC_PUBLISHER_COORDINATOR
  | CVRF_DOC_PUBLISHER_USER
  | CVRF_DOC_PUBLISHER_OTHER
deriving DecidableEq

/-- Modelled from the spec: string table with UNKNOWN fallback, table source
outside the provided slice. -/
def cvrf_doc_publisher_type_get_text : cvrf_doc_publisher_type_t → Option String
  | .CVRF_DOC_PUBLISHER_UNKNOWN => none
  | .CVRF_DOC_PUBLISHER_VENDOR => some "Vendor"
  | .CVRF_DOC_PUBLISHER_DISCOVERER => some "Discoverer"
  | .CVRF_DOC_PUBLISHER_COORDINATOR => some "Coordinator"
  | .CVRF_DOC_PUBLISHER_USER => some "User"
  | .CVRF_DOC_PUBLISHER_OTHER => some "Other"

inductive cvrf_doc_status_type_t : Type where
  | CVRF_DOC_STATUS_UNKNOWN
  | CVRF_DOC_STATUS_DRAFT
  | CVRF_DOC_STATUS_INTERIM
  | CVRF_DOC_STATUS_FINAL
deriving DecidableEq

/-- Modelled from the spec: string table with UNKNOWN fallback, table source
outside the provided slice. -/
def cvrf_doc_status_type_get_text : cvrf_doc_status_type_t → Option String
  | .CVRF_DOC_STATUS_UNKNOWN => none
  | .CVRF_DOC_STATUS_DRAFT => some "Draft"
  | .CVRF_DOC_STATUS_INTERIM => some "Interim"
  | .CVRF_DOC_STATUS_FINAL => some "Final"

inductive cvrf_note_type_t : Type where
  | CVRF_NOTE_UNKNOWN
  | CVRF_NOTE_DESCRIPTION
  | CVRF_NOTE_DETAILS
  | CVRF_NOTE_FAQ
  | CVRF_NOTE_GENERAL
  | CVRF_NOTE_LEGAL_DISCLAIMER
  | CVRF_NOTE_OTHER
  | CVRF_NOTE_SUMMARY
deriving DecidableEq

/-- Modelled from the spec: string table with UNKNOWN fallback, table source
outside the provided slice. -/
def cvrf_note_type_get_text : cvrf_note_type_t → Option String
  | .CVRF_NOTE_UNKNOWN => none
  | .CVRF_NOTE_DESCRIPTION => some "Description"
  | .CVRF_NOTE_DETAILS => some "Details"
  | .CVRF_NOTE_FAQ => some "FAQ"
  | .CVRF_NOTE_GENERAL => some "General"
  | .CVRF_NOTE_LEGAL_DISCLAIMER => some "Legal Disclaimer"
  | .CVRF_NOTE_OTHER => some "Other"
  | .CVRF_NOTE_SUMMARY => some "Summary"

inductive cvrf_reference_type_t : Type where
  | CVRF_REFERENCE_UNKNOWN
  | CVRF_REFERENCE_EXTERNAL
  | CVRF_REFERENCE_SELF
deriving DecidableEq

/-- Modelled from the spec: string table with UNKNOWN fallback, table source
outside the provided slice. -/
def cvrf_reference_type_get_text : cvrf_reference_type_t → Option String
  | .CVRF_REFERENCE_UNKNOWN => none
  | .CVRF_REFERENCE_EXTERNAL => some "External"
  | .CVRF_REFERENCE_SELF => some "Self"

/- ------------------------------------------------------------------ -/
/- The document model, from the struct definitions in cvrf_eval.c.     -/
/- Nullable char pointer fields become Option String; oscap_stringlist -/
/- becomes List String; oscap_list of T becomes List T.                -/
/- ------------------------------------------------------------------ -/

/-- struct cvrf_product_name. -/
structure cvrf_product_name : Type where
  product_id : Option String
  cpe : Option String
deriving DecidableEq

/-- struct cvrf_relationship. -/
structure cvrf_relationship : Type where
  product_reference : Option String
  relation_type : cvrf_relationship_type_t
  relates_to_ref : Option String
  product_name : cvrf_product_name
deriving DecidableEq

/-- struct cvrf_branch; subbranches is the recursive child list. -/
inductive cvrf_branch : Type where
  | mk (type : cvrf_branch_type_t) (branch_name : Option String)
       (product_name : cvrf_product_name) (subbranches : List cvrf_branch)

def cvrf_branch.type : cvrf_branch → cvrf_branch_type_t
  | .mk t _ _ _ => t

def cvrf_branch.branch_name : cvrf_branch → Option String
  | .mk _ n _ _ => n

def cvrf_branch.product_name : cvrf_branch → cvrf_product_name
  | .mk _ _ p _ => p

def cvrf_branch.subbranches : cvrf_branch → List cvrf_branch
  | .mk _ _ _ s => s

/-- struct cvrf_group. -/
structure cvrf_group : Type where
  group_id : Option String
  description : Option String
  product_ids : List String
deriving DecidableEq

/-- struct cvrf_product_tree. -/
structure cvrf_product_tree : Type where
  product_names : List cvrf_product_name
  branches : List cvrf_branch
  relationships : List cvrf_relationship
  product_groups : List cvrf_group

/-- struct cvrf_remediation. -/
structure cvrf_remediation : Type where
  type : cvrf_remediation_type_t
  date : Option String
  description : Option String
  url : Option String
  entitlement : Option String
  product_ids : List String
  group_ids : List String
deriving DecidableEq

/-- The external CVSS impact held by a score set, represented by the three
optional rendered score strings that cvrf_score_set_get_score produces
(a NaN metric renders as NULL, i.e. none).  The floating point metrics
themselves belong to the out-of-scope CVSS component. -/
structure cvss_impact : Type where
  base_score : Option String
  environmental_score : Option String
  temporal_score : Option String
deriving DecidableEq

/-- struct cvrf_score_set. -/
structure cvrf_score_set : Type where
  vector : Option String
  impact : cvss_impact
  product_ids : List String
deriving DecidableEq

/-- struct cvrf_threat. -/
structure cvrf_threat : Type where
  type : cvrf_threat_type_t
  date : Option String
  description : Option String
  product_ids : List String
  group_ids : List String
deriving DecidableEq

/-- struct cvrf_product_status. -/
structure cvrf_product_status : Type where
  type : cvrf_product_status_type_t
  product_ids : List String
deriving DecidableEq

/-- struct cvrf_involvement. -/
structure cvrf_involvement : Type where
  status : cvrf_involvement_status_type_t
  party : cvrf_doc_publisher_type_t
  description : Option String
deriving DecidableEq

/-- struct cvrf_vulnerability_cwe. -/
structure cvrf_vulnerability_cwe : Type where
  cwe : Option String
  id : Option String
deriving DecidableEq

/-- struct cvrf_note. -/
structure cvrf_note : Type where
  type : cvrf_note_type_t
  ordinal : Int
  audience : Option String
  title : Option String
  contents : Option String
deriving DecidableEq

/-- struct cvrf_revision. -/
structure cvrf_revision : Type where
  number : Option String
  date : Option String
  description : Option String
deriving DecidableEq

/-- struct cvrf_reference. -/
structure cvrf_reference : Type where
  type : cvrf_reference_type_t
  url : Option String
  description : Option String
deriving DecidableEq

/-- struct cvrf_acknowledgment. -/
structure cvrf_acknowledgment : Type where
  names : List String
  organizations : List String
  description : Option String
  urls : List String
deriving DecidableEq

/-- struct cvrf_vulnerability. -/
structure cvrf_vulnerability : Type where
  ordinal : Int
  title : Option String
  system_id : Option String
  system_name : Option String
  discovery_date : Option String
  release_date : Option String
  cve_id : Option String
  cwes : List cvrf_vulnerability_cwe
  notes : List cvrf_note
  involvements : List cvrf_involvement
  score_sets : List cvrf_score_set
  product_statuses : List cvrf_product_status
  threats : List cvrf_threat
  remediations : List cvrf_remediation
  references : List cvrf_reference
  acknowledgments : List cvrf_acknowledgment
deriving DecidableEq

/-- struct cvrf_doc_tracking. -/
structure cvrf_doc_tracking : Type where
  tracking_id : Option String
  aliases : List String
  status : cvrf_doc_status_type_t
  version : Option String
  revision_history : List cvrf_revision
  init_release_date : Option String
  cur_release_date : Option String
  generator_engine : Option String
  generator_date : Option String
deriving DecidableEq

/-- struct cvrf_doc_publisher. -/
structure cvrf_doc_publisher : Type where
  type : cvrf_doc_publisher_type_t
  vendor_id : Option String
  contact_details : Option String
  issuing_authority : Option String
deriving DecidableEq

/-- struct cvrf_document.  The C field named namespace is renamed
doc_namespace because namespace is a Lean keyword. -/
structure cvrf_document : Type where
  doc_distribution : Option String
  aggregate_severity : Option String
  doc_namespace : Option String
  tracking : cvrf_doc_tracking
  publisher : cvrf_doc_publisher
  doc_notes : List cvrf_note
  doc_references : List cvrf_reference
  acknowledgments : List cvrf_acknowledgment
deriving DecidableEq

/-- struct cvrf_model. -/
structure cvrf_model : Type where
  doc_title : Option String
  doc_type : Option String
  document : cvrf_document
  tree : cvrf_product_tree
  vulnerabilities : List cvrf_vulnerability

/-- struct cvrf_session, restricted to the fields the verified functions
read: the model, the target platform identifier, and the collected matched
product ids.  The remaining fields (index, oscap_source, file paths, OVAL
definition model registry) are I/O and registry handles outside the scope
of the claims. -/
structure cvrf_session : Type where
  model : cvrf_model
  os_name : Option String
  product_ids : List String

/-- struct cvrf_rpm_attributes, restricted to the two fields the
decomposition computes.  The full_package_name field is a display name
looked up from the product tree and is not examined by any claim. -/
structure cvrf_rpm_attributes : Type where
  rpm_name : String
  evr_format : String
deriving DecidableEq

/- ------------------------------------------------------------------ -/
/- Clone functions.  oscap_strdup duplicates a string (NULL maps to    -/
/- NULL), oscap_stringlist_clone and oscap_list_clone copy             -/
/- element-wise; in the value semantics of this embedding those are    -/
/- identities, so each clone is written exactly as its field           -/
/- assignments in the C.                                               -/
/- ------------------------------------------------------------------ -/

/-- cvrf_product_name_clone. -/
def cvrf_product_name_clone (full_name : cvrf_product_name) : cvrf_product_name :=
  { product_id := full_name.product_id
    cpe := full_name.cpe }

/-- cvrf_relationship_clone. -/
def cvrf_relationship_clone (relation : cvrf_relationship) : cvrf_relationship :=
  { relation_type := relation.relation_type
    product_reference := relation.product_reference
    relates_to_ref := relation.relates_to_ref
    product_name := cvrf_product_name_clone relation.product_name }

mutual

/-- cvrf_branch_clone: recursive over the subbranch list. -/
def cvrf_branch_clone : cvrf_branch → cvrf_branch
  | .mk ty name pn subs =>
      .mk ty name (cvrf_product_name_clone pn) (cvrf_branch_clone_list subs)

/-- oscap_list_clone specialized to branch lists (element-wise clone). -/
def cvrf_branch_clone_list : List cvrf_branch → List cvrf_branch
  | [] => []
  | b :: rest => cvrf_branch_clone b :: cvrf_branch_clone_list rest

end

/-- cvrf_group_clone. -/
def cvrf_group_clone (group : cvrf_group) : cvrf_group :=
  { group_id := group.group_id
    description := group.description
    product_ids := group.product_ids }

/-- cvrf_product_tree_clone. -/
def cvrf_product_tree_clone (tree : cvrf_product_tree) : cvrf_product_tree :=
  { product_names := tree.product_names.map cvrf_product_name_clone
    branches := tree.branches.map cvrf_branch_clone
    relationships := tree.relationships.map cvrf_relationship_clone
    product_groups := tree.product_groups.map cvrf_group_clone }

/-- cvrf_remediation_clone. -/
def cvrf_remediation_clone (remed : cvrf_remediation) : cvrf_remediation :=
  { type := remed.type
    date := remed.date
    description := remed.description
    url := remed.url
    entitlement := remed.entitlement
    product_ids := remed.product_ids
    group_ids := remed.group_ids }

/-- cvrf_score_set_clone (cvss_impact_clone copies the external impact). -/
def cvrf_score_set_clone (score_set : cvrf_score_set) : cvrf_score_set :=
  { vector := score_set.vector
    impact := score_set.impact
    product_ids := score_set.product_ids }

/-- cvrf_threat_clone. -/
def cvrf_threat_clone (threat : cvrf_threat) : cvrf_threat :=
  { type := threat.type
    date := threat.date
    description := threat.description
    product_ids := threat.product_ids
    group_ids := threat.group_ids }

/-- cvrf_product_status_clone. -/
def cvrf_product_status_clone (stat : cvrf_product_status) : cvrf_product_status :=
  { type := stat.type
    product_ids := stat.product_ids }

/-- cvrf_involvement_clone. -/
def cvrf_involvement_clone (involve : cvrf_involvement) : cvrf_involvement :=
  { status := involve.status
    party := involve.party
    description := involve.description }

/-- cvrf_vulnerability_cwe_clone.  The C copies the cwe and id pointers
without strdup, so clone and original share the two strings; the shared
strings are value-equal, which is what this embedding records. -/
def cvrf_vulnerability_cwe_clone (vuln_cwe : cvrf_vulnerability_cwe) :
    cvrf_vulnerability_cwe :=
  { cwe := vuln_cwe.cwe
    id := vuln_cwe.id }

/-- cvrf_note_clone. -/
def cvrf_note_clone (note : cvrf_note) : cvrf_note :=
  { type := note.type
    ordinal := note.ordinal
    audience := note.audience
    title := note.title
    contents := note.contents }

/-- cvrf_revision_clone. -/
def cvrf_revision_clone (revision : cvrf_revision) : cvrf_revision :=
  { number := revision.number
    date := revision.date
    description := revision.description }

/-- cvrf_reference_clone. -/
def cvrf_reference_clone (ref : cvrf_reference) : cvrf_reference :=
  { type := ref.type
    url := ref.url
    description := ref.description }

/-- cvrf_acknowledgment_clone. -/
def cvrf_acknowledgment_clone (ack : cvrf_acknowledgment) : cvrf_acknowledgment :=
  { names := ack.names
    organizations := ack.organizations
    description := ack.description
    urls := ack.urls }

/-- cvrf_vulnerability_clone, translated statement by statement from the C.
The C writes clone->system_id twice - first from vuln->system_id, then
from vuln->system_name, so the second assignment is the one that
survives - and it never assigns clone->system_name or clone->cve_id at
all, leaving those two fields as uninitialized malloc memory.  The
uninitialized contents are represented by the two explicit parameters. -/
def cvrf_vulnerability_clone (uninit_system_name uninit_cve_id : Option String)
    (vuln : cvrf_vulnerability) : cvrf_vulnerability :=
  { ordinal := vuln.ordinal
    title := vuln.title
    system_id := vuln.system_name
    system_name := uninit_system_name
    discovery_date := vuln.discovery_date
    release_date := vuln.release_date
    cve_id := uninit_cve_id
    cwes := vuln.cwes.map cvrf_vulnerability_cwe_clone
    notes := vuln.notes.map cvrf_note_clone
    involvements := vuln.involvements.map cvrf_involvement_clone
    product_statuses := vuln.product_statuses.map cvrf_product_status_clone
    threats := vuln.threats.map cvrf_threat_clone
    score_sets := vuln.score_sets.map cvrf_score_set_clone
    remediations := vuln.remediations.map cvrf_remediation_clone
    references := vuln.references.map cvrf_reference_clone
    acknowledgments := vuln.acknowledgments.map cvrf_acknowledgment_clone }

/-- cvrf_doc_tracking_clone. -/
def cvrf_doc_tracking_clone (tracking : cvrf_doc_tracking) : cvrf_doc_tracking :=
  { tracking_id := tracking.tracking_id
    aliases := tracking.aliases
    status := tracking.status
    version := tracking.version
    revision_history := tracking.revision_history.map cvrf_revision_clone
    init_release_date := tracking.init_release_date
    cur_release_date := tracking.cur_release_date
    generator_engine := tracking.generator_engine
    generator_date := tracking.generator_date }

/-- cvrf_doc_publisher_clone. -/
def cvrf_doc_publisher_clone (publisher : cvrf_doc_publisher) : cvrf_doc_publisher :=
  { type := publisher.type
    vendor_id := publisher.vendor_id
    contact_details := publisher.contact_details
    issuing_authority := publisher.issuing_authority }

/-- cvrf_document_clone. -/
def cvrf_document_clone (doc : cvrf_document) : cvrf_document :=
  { doc_distribution := doc.doc_distribution
    aggregate_severity := doc.aggregate_severity
    doc_namespace := doc.doc_namespace
    tracking := cvrf_doc_tracking_clone doc.tracking
    publisher := cvrf_doc_publisher_clone doc.publisher
    doc_notes := doc.doc_notes.map cvrf_note_clone
    doc_references := doc.doc_references.map cvrf_reference_clone
    acknowledgments := doc.acknowledgments.map cvrf_acknowledgment_clone }

/-- cvrf_model_clone.  The uninitialized-memory parameters of
cvrf_vulnerability_clone are threaded through (each cloned vulnerability
in the C gets whatever garbage its own malloc produced; one pair of
parameters per call is a conservative rendering). -/
def cvrf_model_clone (uninit_system_name uninit_cve_id : Option String)
    (model : cvrf_model) : cvrf_model :=
  { doc_title := model.doc_title
    doc_type := model.doc_type
    document := cvrf_document_clone model.document
    tree := cvrf_product_tree_clone model.tree
    vulnerabilities :=
      model.vulnerabilities.map (cvrf_vulnerability_clone uninit_system_name uninit_cve_id) }

/- ------------------------------------------------------------------ -/
/- Platform matching and filtering.                                    -/
/- ------------------------------------------------------------------ -/

mutual

/-- get_cvrf_product_id_from_branch.  A product-family branch recurses into
its subbranches, taking the first non-NULL result; any other branch
returns its product id when its name equals the platform string and NULL
otherwise.  Comparing a NULL branch name with strcmp is undefined in the
C; theorems about this function assume the names on the compared branches
are present. -/
def get_cvrf_product_id_from_branch (branch : cvrf_branch) (cpe : String) :
    Option String :=
  match branch with
  | .mk ty name pn subs =>
    if ty = .CVRF_BRANCH_PRODUCT_FAMILY then
      get_cvrf_product_id_from_subbranches subs cpe
    else if name = some cpe then pn.product_id else none

/-- The while loop inside get_cvrf_product_id_from_branch: advance through
the subbranches while the accumulated product id is still NULL. -/
def get_cvrf_product_id_from_subbranches (branches : List cvrf_branch) (cpe : String) :
    Option String :=
  match branches with
  | [] => none
  | b :: rest =>
    match get_cvrf_product_id_from_branch b cpe with
    | some product_id => some product_id
    | none => get_cvrf_product_id_from_subbranches rest cpe

end

/-- get_cvrf_product_id_from_cpe: the same while loop over the top-level
branch list of the product tree. -/
def get_cvrf_product_id_from_cpe (tree : cvrf_product_tree) (cpe : String) :
    Option String :=
  get_cvrf_product_id_from_subbranches tree.branches cpe

/-- cvrf_product_tree_filter_by_cpe.  On a match, surviving relationships
are cloned into a fresh list in their original order; if that list is
empty it is discarded and the tree keeps its original relationship list,
otherwise the original list is freed and replaced.  Comparing a NULL
relates_to_ref with strcmp is undefined in the C; theorems assume the
references on compared relationships are present. -/
def cvrf_product_tree_filter_by_cpe (tree : cvrf_product_tree) (cpe : String) :
    Int × cvrf_product_tree :=
  match get_cvrf_product_id_from_cpe tree cpe with
  | none => (-1, tree)
  | some branch_id =>
    let filtered_relation :=
      (tree.relationships.filter (fun relation => relation.relates_to_ref = some branch_id)).map
        cvrf_relationship_clone
    if filtered_relation.length = 0 then (-1, tree)
    else (0, { tree with relationships := filtered_relation })

/-- oscap_str_startswith(str, pre).  Modelled from the spec: the helper
lives in common/util.c outside the provided slice; the spec describes the
per-vulnerability narrowing as keeping ids that have the matched platform
identifier as a string prefix (strncmp over the length of the second
argument, here stated over the character lists). -/
def oscap_str_startswith (str pre : String) : Bool :=
  pre.toList.isPrefixOf str.toList

/-- The ids of one ProductStatus entry that survive the prefix test of
cvrf_vulnerability_filter_by_product. -/
def cvrf_product_status_matching_ids (prod : String) (stat : cvrf_product_status) :
    List String :=
  stat.product_ids.filter (fun product_id => oscap_str_startswith product_id prod)

/-- cvrf_vulnerability_filter_by_product.  The C allocates one stringlist
filtered_ids before the loop and reuses it for every ProductStatus entry:
each iteration appends the matching ids of the current entry to that same
list and then stores a pointer to it into the entry.  Consequently (1)
the emptiness test can only fire on the first entry, because once any id
has been appended the shared list never becomes empty again, and on such
failure the vulnerability is left unchanged and -1 is returned, and (2)
on success every entry ends up aliasing the one shared list, whose final
contents are the concatenation, in entry order, of the matching ids of
all entries.  This definition records exactly that final state. -/
def cvrf_vulnerability_filter_by_product (vuln : cvrf_vulnerability) (prod : String) :
    Int × cvrf_vulnerability :=
  match vuln.product_statuses with
  | [] => (0, vuln)
  | first :: _ =>
    if cvrf_product_status_matching_ids prod first = [] then (-1, vuln)
    else
      let filtered_ids :=
        (vuln.product_statuses.map (cvrf_product_status_matching_ids prod)).flatten
      (0, { vuln with
              product_statuses :=
                vuln.product_statuses.map (fun stat => { stat with product_ids := filtered_ids }) })

/-- cvrf_model_filter_by_cpe.  The C first computes the matched product id,
then runs the tree filter; when the tree filter fails (which includes the
no-match case, where the matched id is NULL and nothing has been touched)
-1 is returned, otherwise every vulnerability is filtered with the
matched id, each per-vulnerability return value being discarded, and 0 is
returned. -/
def cvrf_model_filter_by_cpe (model : cvrf_model) (cpe : String) : Int × cvrf_model :=
  match get_cvrf_product_id_from_cpe model.tree cpe with
  | none => (-1, model)
  | some product =>
    let tres := cvrf_product_tree_filter_by_cpe model.tree cpe
    if tres.1 = -1 then (-1, { model with tree := tres.2 })
    else
      (0, { model with
              tree := tres.2
              vulnerabilities :=
                model.vulnerabilities.map
                  (fun vuln => (cvrf_vulnerability_filter_by_product vuln product).2) })

/- ------------------------------------------------------------------ -/
/- Results assembler and rule synthesizer.                             -/
/- ------------------------------------------------------------------ -/

/-- cvrf_product_vulnerability_fixed: true exactly when the product string
compares strcmp-equal to some id in some ProductStatus entry of the
vulnerability, regardless of that entry category. -/
def cvrf_product_vulnerability_fixed (vuln : cvrf_vulnerability) (product : String) :
    Bool :=
  vuln.product_statuses.any (fun stat =>
    stat.product_ids.any (fun product_id => product_id = product))

/-- parse_rpm_attributes_from_cvrf_product_id, translated index for index.
The C takes the substring after the FIRST colon of the product id
(strchr), scans it for the next colon at position index, truncates the
package name two characters before that colon (package[index-2] = 0) and
starts the EVR one character before it (&package[index-1]), so the
character immediately preceding the colon - the RPM epoch digit in the
identifiers this code expects - is moved into the EVR.  A product id with
no colon at all, or with the second colon at position 0 or 1, makes the C
read or write out of bounds (undefined); this translation is only
evaluated at inputs where the C is defined.  The full_package_name field
(a display name resolved from the product tree) is not part of the
decomposition and is omitted. -/
def parse_rpm_attributes_from_cvrf_product_id (product_id : String) :
    cvrf_rpm_attributes :=
  let package := ((product_id.toList.dropWhile (fun c => c ≠ ':')).drop 1)
  let index := package.findIdx (fun c => c = ':')
  { rpm_name := String.mk (package.take (index - 2))
    evr_format := String.mk (package.drop (index - 1)) }

/-- get_oval_id_string. -/
def get_oval_id_string (type : String) (object_number : Nat) : String :=
  "oval:org.open-scap.unix:" ++ type ++ ":" ++ toString object_number

/-- One synthesized object/state/test/definition group, represented by the
four identifiers registered in the OVAL definition model together with
the decomposed attributes fed into the object (package name) and the
state (EVR upper bound).  create_oval_definition_for_cvrf_rpm_attributes
passes its index unchanged to the test, which passes it unchanged to the
state and the object, so one group shares one index. -/
structure oval_cvrf_definition : Type where
  object_id : String
  state_id : String
  test_id : String
  definition_id : String
  rpm_name : String
  evr_format : String
deriving DecidableEq

/-- create_oval_definition_for_cvrf_rpm_attributes together with the
get_new_rpminfo_test_for_cvrf, get_new_oval_state_for_cvrf and
get_new_oval_object_for_cvrf calls it makes, restricted to the
identifiers and attributes they register. -/
def create_oval_definition_for_cvrf_rpm_attributes
    (attributes : cvrf_rpm_attributes) (index : Nat) : oval_cvrf_definition :=
  { object_id := get_oval_id_string "obj" index
    state_id := get_oval_id_string "ste" index
    test_id := get_oval_id_string "tst" index
    definition_id := get_oval_id_string "def" index
    rpm_name := attributes.rpm_name
    evr_format := attributes.evr_format }

/-- The while loop of cvrf_session_construct_definition_model: one record
per product id, with the index incremented after each record. -/
def cvrf_construct_definition_loop (product_ids : List String) (index : Nat) :
    List oval_cvrf_definition :=
  match product_ids with
  | [] => []
  | product_id :: rest =>
    create_oval_definition_for_cvrf_rpm_attributes
        (parse_rpm_attributes_from_cvrf_product_id product_id) index
      :: cvrf_construct_definition_loop rest (index + 1)

/-- cvrf_session_construct_definition_model, as a function of the product
id list of the session: the index starts at 1 and is incremented once per
product id. -/
def cvrf_session_construct_definition_model (product_ids : List String) :
    List oval_cvrf_definition :=
  cvrf_construct_definition_loop product_ids 1

/- ------------------------------------------------------------------ -/
/- Serializer (the to_dom functions).                                  -/
/- ------------------------------------------------------------------ -/

/-- The item nodes cvrf_list_to_dom appends directly to an existing
parent: one node per item whose to_dom produced a non-NULL node
(xmlAddChild of NULL is a no-op). -/
def cvrf_list_to_dom_items {α : Type} (list : List α) (f : α → Option Xml) : List Xml :=
  list.filterMap f

/-- cvrf_element_add_container / cvrf_list_to_dom with a NULL parent: when
the backing list is empty no node is produced at all; otherwise a wrapper
element holding the item nodes.  The container tag for each item kind
(cvrf_item_type_get_container) lives in cvrf_enumeration.c outside the
provided slice; the tags used below are the ones the parser in this file
dispatches on. -/
def cvrf_element_add_container {α : Type} (list : List α) (container_tag : String)
    (f : α → Option Xml) : List Xml :=
  if list.isEmpty then [] else [Xml.elem container_tag [] none (cvrf_list_to_dom_items list f)]

/-- cvrf_remediation_to_dom.  The Date field is never written out: the C
emits only the Type attribute and the Description / URL / Entitlement /
ProductID / GroupID children.  The Description child carries the fixed
xml:lang attribute; when the description is NULL the child is skipped
(cvrf_element_to_dom returns NULL and xmlAddChild ignores it). -/
def cvrf_remediation_to_dom (remed : cvrf_remediation) : Xml :=
  Xml.elem "Remediation"
    (cvrf_element_add_attribute "Type" (cvrf_remediation_type_get_text remed.type))
    none
    ((match remed.description with
      | none => []
      | some d => [Xml.elem "Description" [("xml:lang", "en")] (some d) []]) ++
     cvrf_element_add_child "URL" remed.url ++
     cvrf_element_add_child "Entitlement" remed.entitlement ++
     cvrf_element_add_stringlist remed.product_ids "ProductID" ++
     cvrf_element_add_stringlist remed.group_ids "GroupID")

/-- cvrf_score_set_to_dom. -/
def cvrf_score_set_to_dom (score_set : cvrf_score_set) : Xml :=
  Xml.elem "ScoreSet" [] none
    (cvrf_element_add_child "BaseScore" score_set.impact.base_score ++
     cvrf_element_add_child "EnvironmentalScore" score_set.impact.environmental_score ++
     cvrf_element_add_child "TemporalScore" score_set.impact.temporal_score ++
     cvrf_element_add_child "Vector" score_set.vector ++
     cvrf_element_add_stringlist score_set.product_ids "ProductID")

/-- cvrf_threat_to_dom. -/
def cvrf_threat_to_dom (threat : cvrf_threat) : Xml :=
  Xml.elem "Threat"
    (cvrf_element_add_attribute "Type" (cvrf_threat_type_get_text threat.type) ++
     cvrf_element_add_attribute "Date" threat.date)
    none
    (cvrf_element_add_child "Description" threat.description ++
     cvrf_element_add_stringlist threat.product_ids "ProductID" ++
     cvrf_element_add_stringlist threat.group_ids "GroupID")

/-- cvrf_product_status_to_dom. -/
def cvrf_product_status_to_dom (stat : cvrf_product_status) : Xml :=
  Xml.elem "Status"
    (cvrf_element_add_attribute "Type" (cvrf_product_status_type_get_text stat.type))
    none
    (cvrf_element_add_stringlist stat.product_ids "ProductID")

/-- cvrf_involvement_to_dom. -/
def cvrf_involvement_to_dom (involve : cvrf_involvement) : Xml :=
  Xml.elem "Involvement"
    (cvrf_element_add_attribute "Status" (cvrf_involvement_status_type_get_text involve.status) ++
     cvrf_element_add_attribute "Party" (cvrf_doc_publisher_type_get_text involve.party))
    none
    (cvrf_element_add_child "Description" involve.description)

/-- cvrf_vulnerability_cwe_to_dom: NULL when the cwe text is NULL. -/
def cvrf_vulnerability_cwe_to_dom (vuln_cwe : cvrf_vulnerability_cwe) : Option Xml :=
  match vuln_cwe.cwe with
  | none => none
  | some c => some (Xml.elem "CWE" (cvrf_element_add_attribute "ID" vuln_cwe.id) (some c) [])

/-- cvrf_note_to_dom: NULL when the contents are NULL (the C then adds the
attributes to a NULL node, which is a no-op). -/
def cvrf_note_to_dom (note : cvrf_note) : Option Xml :=
  match note.contents with
  | none => none
  | some c =>
    some (Xml.elem "Note"
      (cvrf_element_add_ordinal note.ordinal ++
       cvrf_element_add_attribute "Type" (cvrf_note_type_get_text note.type) ++
       cvrf_element_add_attribute "Title" note.title ++
       cvrf_element_add_attribute "Audience" note.audience)
      (some c) [])

/-- cvrf_product_name_to_dom: NULL when the cpe text is NULL. -/
def cvrf_product_name_to_dom (full_name : cvrf_product_name) : Option Xml :=
  match full_name.cpe with
  | none => none
  | some c =>
    some (Xml.elem "FullProductName"
      (cvrf_element_add_attribute "ProductID" full_name.product_id) (some c) [])

/-- cvrf_group_to_dom. -/
def cvrf_group_to_dom (group : cvrf_group) : Xml :=
  Xml.elem "Group"
    (cvrf_element_add_attribute "GroupID" group.group_id)
    none
    (cvrf_element_add_child "Description" group.description ++
     cvrf_element_add_stringlist group.product_ids "ProductID")

/-- cvrf_relationship_to_dom. -/
def cvrf_relationship_to_dom (relation : cvrf_relationship) : Xml :=
  Xml.elem "Relationship"
    (cvrf_element_add_attribute "ProductReference" relation.product_reference ++
     cvrf_element_add_attribute "RelationType"
       (cvrf_relationship_type_get_text relation.relation_type) ++
     cvrf_element_add_attribute "RelatesToProductReference" relation.relates_to_ref)
    none
    ((cvrf_product_name_to_dom relation.product_name).toList)

mutual

/-- cvrf_branch_to_dom: a product-family branch emits its subbranches
(directly, with no wrapper, via cvrf_list_to_dom on the branch node),
every other branch emits its FullProductName child. -/
def cvrf_branch_to_dom (branch : cvrf_branch) : Xml :=
  match branch with
  | .mk ty name pn subs =>
    Xml.elem "Branch"
      (cvrf_element_add_attribute "Type" (cvrf_branch_type_get_text ty) ++
       cvrf_element_add_attribute "Name" name)
      none
      (if ty = .CVRF_BRANCH_PRODUCT_FAMILY then cvrf_branch_to_dom_list subs
       else (cvrf_product_name_to_dom pn).toList)

/-- cvrf_list_to_dom restricted to branch lists with a given parent. -/
def cvrf_branch_to_dom_list : List cvrf_branch → List Xml
  | [] => []
  | b :: rest => cvrf_branch_to_dom b :: cvrf_branch_to_dom_list rest

end

/-- cvrf_reference_to_dom. -/
def cvrf_reference_to_dom (ref : cvrf_reference) : Xml :=
  Xml.elem "Reference"
    (cvrf_element_add_attribute "Type" (cvrf_reference_type_get_text ref.type))
    none
    (cvrf_element_add_child "URL" ref.url ++
     cvrf_element_add_child "Description" ref.description)

/-- cvrf_acknowledgment_to_dom. -/
def cvrf_acknowledgment_to_dom (ack : cvrf_acknowledgment) : Xml :=
  Xml.elem "Acknowledgment" [] none
    (cvrf_element_add_stringlist ack.names "Name" ++
     cvrf_element_add_stringlist ack.organizations "Organization" ++
     cvrf_element_add_child "Description" ack.description ++
     cvrf_element_add_stringlist ack.urls "URL")

/-- cvrf_revision_to_dom. -/
def cvrf_revision_to_dom (revision : cvrf_revision) : Xml :=
  Xml.elem "Revision" [] none
    (cvrf_element_add_child "Number" revision.number ++
     cvrf_element_add_child "Date" revision.date ++
     cvrf_element_add_child "Description" revision.description)

/-- cvrf_doc_tracking_to_dom.  The Identification wrapper is emitted only
when the tracking id is present; the Generator wrapper only when the
generator engine is present (a generator date without an engine is
dropped). -/
def cvrf_doc_tracking_to_dom (tracking : cvrf_doc_tracking) : Xml :=
  Xml.elem "DocumentTracking" [] none
    ((match tracking.tracking_id with
      | none => []
      | some _ =>
        [Xml.elem "Identification" [] none
          (cvrf_element_add_child "ID" tracking.tracking_id ++
           cvrf_element_add_stringlist tracking.aliases "Alias")]) ++
     cvrf_element_add_child "Status" (cvrf_doc_status_type_get_text tracking.status) ++
     cvrf_element_add_child "Version" tracking.version ++
     cvrf_element_add_container tracking.revision_history "RevisionHistory"
       (fun r => some (cvrf_revision_to_dom r)) ++
     cvrf_element_add_child "InitialReleaseDate" tracking.init_release_date ++
     cvrf_element_add_child "CurrentReleaseDate" tracking.cur_release_date ++
     (match tracking.generator_engine with
      | none => []
      | some _ =>
        [Xml.elem "Generator" [] none
          (cvrf_element_add_child "Engine" tracking.generator_engine ++
           cvrf_element_add_child "Date" tracking.generator_date)]))

/-- cvrf_doc_publisher_to_dom.  The VendorID attribute read by the parser
is never written back. -/
def cvrf_doc_publisher_to_dom (publisher : cvrf_doc_publisher) : Xml :=
  Xml.elem "DocumentPublisher"
    (cvrf_element_add_attribute "Type" (cvrf_doc_publisher_type_get_text publisher.type))
    none
    (cvrf_element_add_child "ContactDetails" publisher.contact_details ++
     cvrf_element_add_child "IssuingAuthority" publisher.issuing_authority)

/-- cvrf_document_to_dom: a sibling chain, in the order the xmlAddSibling
calls build it.  When the DocumentDistribution text is NULL, the
distribution node is NULL and the following xmlAddSibling(distribution,
severity) is a no-op on a NULL first argument, so the AggregateSeverity
node is dropped as well. -/
def cvrf_document_to_dom (document : cvrf_document) : List Xml :=
  [cvrf_doc_publisher_to_dom document.publisher,
   cvrf_doc_tracking_to_dom document.tracking] ++
  cvrf_element_add_container document.doc_notes "DocumentNotes" cvrf_note_to_dom ++
  (match document.doc_distribution with
   | none => []
   | some d =>
     [Xml.elem "DocumentDistribution" [("xml:lang", "en")] (some d) []] ++
     (match document.aggregate_severity with
      | none => []
      | some s =>
        [Xml.elem "AggregateSeverity"
          (cvrf_element_add_attribute "Namespace" document.doc_namespace) (some s) []])) ++
  cvrf_element_add_container document.doc_references "DocumentReferences"
    (fun r => some (cvrf_reference_to_dom r)) ++
  cvrf_element_add_container document.acknowledgments "Acknowledgments"
    (fun a => some (cvrf_acknowledgment_to_dom a))

/-- cvrf_vulnerability_to_dom.  The Ordinal attribute is always present;
the vulnerability namespace declaration is not modeled.  CWE nodes are
appended directly (cvrf_list_to_dom with the vulnerability node as
parent), every other repeated child sits in its container. -/
def cvrf_vulnerability_to_dom (vuln : cvrf_vulnerability) : Xml :=
  Xml.elem "Vulnerability"
    (cvrf_element_add_ordinal vuln.ordinal)
    none
    (cvrf_element_add_child "Title" vuln.title ++
     (match vuln.system_id with
      | none => []
      | some sid =>
        [Xml.elem "ID" (cvrf_element_add_attribute "SystemName" vuln.system_name)
          (some sid) []]) ++
     cvrf_element_add_container vuln.notes "Notes" cvrf_note_to_dom ++
     cvrf_element_add_child "DiscoveryDate" vuln.discovery_date ++
     cvrf_element_add_child "ReleaseDate" vuln.release_date ++
     cvrf_element_add_container vuln.involvements "Involvements"
       (fun i => some (cvrf_involvement_to_dom i)) ++
     cvrf_element_add_child "CVE" vuln.cve_id ++
     cvrf_list_to_dom_items vuln.cwes cvrf_vulnerability_cwe_to_dom ++
     cvrf_element_add_container vuln.product_statuses "ProductStatuses"
       (fun s => some (cvrf_product_status_to_dom s)) ++
     cvrf_element_add_container vuln.threats "Threats"
       (fun t => some (cvrf_threat_to_dom t)) ++
     cvrf_element_add_container vuln.score_sets "CVSSScoreSets"
       (fun s => some (cvrf_score_set_to_dom s)) ++
     cvrf_element_add_container vuln.remediations "Remediations"
       (fun r => some (cvrf_remediation_to_dom r)) ++
     cvrf_element_add_container vuln.references "References"
       (fun r => some (cvrf_reference_to_dom r)) ++
     cvrf_element_add_container vuln.acknowledgments "Acknowledgments"
       (fun a => some (cvrf_acknowledgment_to_dom a)))

/-- One Result entry of the results assembler: a ProductID child and a
VulnerabilityStatus child whose text is FIXED when
cvrf_product_vulnerability_fixed holds and VULNERABLE otherwise. -/
def cvrf_result_to_dom (vuln : cvrf_vulnerability) (product_id : String) : Xml :=
  Xml.elem "Result" [] none
    (cvrf_element_add_child "ProductID" (some product_id) ++
     (if cvrf_product_vulnerability_fixed vuln product_id then
        cvrf_element_add_child "VulnerabilityStatus" (some "FIXED")
      else
        cvrf_element_add_child "VulnerabilityStatus" (some "VULNERABLE")))

/-- The per-vulnerability loop body of cvrf_model_results_to_dom: the
serialized vulnerability node gains one trailing Results child holding
one Result entry per matched product id of the session. -/
def cvrf_vulnerability_results_to_dom (session : cvrf_session)
    (vuln : cvrf_vulnerability) : Xml :=
  match cvrf_vulnerability_to_dom vuln with
  | .elem n a t c =>
    Xml.elem n a t
      (c ++ [Xml.elem "Results" [] none
              (session.product_ids.map (cvrf_result_to_dom vuln))])

/-- The children of the cvrfdoc root that precede the vulnerability nodes
in cvrf_model_results_to_dom: the always-present DocumentTitle node with
its fixed xml:lang attribute, the optional DocumentType child, and the
document sibling chain. -/
def cvrf_model_results_header (session : cvrf_session) : List Xml :=
  [Xml.elem "DocumentTitle" [("xml:lang", "en")] session.model.doc_title []] ++
  cvrf_element_add_child "DocumentType" session.model.doc_type ++
  cvrf_document_to_dom session.model.document

/-- cvrf_model_results_to_dom.  The two cvrf namespace declarations on the
root are not modeled.  The product tree is not serialized here. -/
def cvrf_model_results_to_dom (session : cvrf_session) : Xml :=
  Xml.elem "cvrfdoc" [] none
    (cvrf_model_results_header session ++
     session.model.vulnerabilities.map (cvrf_vulnerability_results_to_dom session))

/- ------------------------------------------------------------------ -/
/- The remediation parser.                                             -/
/- ------------------------------------------------------------------ -/

/-- cvrf_remediation_type_parse: resolves the Type attribute of the
current node through the remediation string table. -/
def cvrf_remediation_type_parse (x : Xml) : cvrf_remediation_type_t :=
  cvrf_remediation_type_from_text (x.attrs.lookup "Type")

/-- cvrf_remediation_parse, over the subtree of one Remediation element:
the Type and Date attributes are read first, then the child elements are
scanned in order, each recognized tag assigning a scalar field (a later
occurrence overwriting an earlier one, as oscap_element_string_copy does)
or appending to a string list.  Non-element nodes the C cursor skips have
no counterpart in the Xml value.  A ProductID or GroupID child with no
text would make the C pass NULL to oscap_stringlist_add_string
(undefined); such a child is skipped here and never appears in the
evaluated inputs. -/
def cvrf_remediation_parse (x : Xml) : cvrf_remediation :=
  x.children.foldl
    (fun remed child =>
      if child.name = "Description" then { remed with description := child.text }
      else if child.name = "URL" then { remed with url := child.text }
      else if child.name = "ProductID" then
        { remed with product_ids := remed.product_ids ++ child.text.toList }
      else if child.name = "GroupID" then
        { remed with group_ids := remed.group_ids ++ child.text.toList }
      else if child.name = "Entitlement" then { remed with entitlement := child.text }
      else remed)
    { type := cvrf_remediation_type_parse x
      date := x.attrs.lookup "Date"
      description := none
      url := none
      entitlement := none
      product_ids := []
      group_ids := [] }

/- ------------------------------------------------------------------ -/
/- Specification-side formulations used to state the claims.           -/
/- ------------------------------------------------------------------ -/

mutual

/-- The leaves of a branch in depth-first document order: a
product-family branch contributes the leaves of its subbranches in
order, any other branch is itself a leaf (its subbranches, which a
well-formed document never gives it, are not traversed by the search). -/
def cvrf_branch_dfs_leaves : cvrf_branch → List cvrf_branch
  | .mk ty name pn subs =>
    if ty = .CVRF_BRANCH_PRODUCT_FAMILY then cvrf_forest_dfs_leaves subs
    else [.mk ty name pn subs]

/-- The leaves of a branch forest in depth-first document order. -/
def cvrf_forest_dfs_leaves : List cvrf_branch → List cvrf_branch
  | [] => []
  | b :: rest => cvrf_branch_dfs_leaves b ++ cvrf_forest_dfs_leaves rest

end

/-- Whether some leaf of the product tree carries the given branch name. -/
def cvrf_product_tree_has_leaf_named (tree : cvrf_product_tree) (name : String) : Bool :=
  (cvrf_forest_dfs_leaves tree.branches).any (fun l => l.branch_name = some name)

/- ------------------------------------------------------------------ -/
/- Empty constructors (the _new functions), used to build concrete     -/
/- evaluation inputs.                                                  -/
/- ------------------------------------------------------------------ -/

/-- cvrf_doc_tracking_new. -/
def cvrf_doc_tracking_new : cvrf_doc_tracking :=
  { tracking_id := none, aliases := [], status := .CVRF_DOC_STATUS_UNKNOWN,
    version := none, revision_history := [], init_release_date := none,
    cur_release_date := none, generator_engine := none, generator_date := none }

/-- cvrf_doc_publisher_new. -/
def cvrf_doc_publisher_new : cvrf_doc_publisher :=
  { type := .CVRF_DOC_PUBLISHER_UNKNOWN, vendor_id := none,
    contact_details := none, issuing_authority := none }

/-- cvrf_document_new. -/
def cvrf_document_new : cvrf_document :=
  { doc_distribution := none, aggregate_severity := none, doc_namespace := none,
    tracking := cvrf_doc_tracking_new, publisher := cvrf_doc_publisher_new,
    doc_notes := [], doc_references := [], acknowledgments := [] }

/-- cvrf_product_tree_new. -/
def cvrf_product_tree_new : cvrf_product_tree :=
  { product_names := [], branches := [], relationships := [], product_groups := [] }

/-- cvrf_vulnerability_new. -/
def cvrf_vulnerability_new : cvrf_vulnerability :=
  { ordinal := 0, title := none, system_id := none, system_name := none,
    discovery_date := none, release_date := none, cve_id := none,
    cwes := [], notes := [], involvements := [], score_sets := [],
    product_statuses := [], threats := [], remediations := [],
    references := [], acknowledgments := [] }

/- ------------------------------------------------------------------ -/
/- Shared lemmas.                                                      -/
/- ------------------------------------------------------------------ -/

theorem cvrf_product_name_clone_eq (full_name : cvrf_product_name) :
    cvrf_product_name_clone full_name = full_name := rfl

theorem cvrf_relationship_clone_eq (relation : cvrf_relationship) :
    cvrf_relationship_clone relation = relation := rfl

theorem cvrf_relationship_clone_map_eq (l : List cvrf_relationship) :
    l.map cvrf_relationship_clone = l := by
  induction l with
  | nil => rfl
  | cons a t ih => simp [cvrf_relationship_clone_eq, ih]

mutual

theorem get_cvrf_product_id_from_branch_none (cpe : String) :
    ∀ (b : cvrf_branch),
      (∀ l ∈ cvrf_branch_dfs_leaves b, ¬ l.branch_name = some cpe) →
      get_cvrf_product_id_from_branch b cpe = none
  | .mk ty name pn subs => fun h => by
      by_cases hty : ty = cvrf_branch_type_t.CVRF_BRANCH_PRODUCT_FAMILY
      · rw [get_cvrf_product_id_from_branch]
        simp only [hty, if_true]
        exact get_cvrf_product_id_from_subbranches_none cpe subs (by
          intro l hl
          apply h l
          rw [cvrf_branch_dfs_leaves]
          simp [hty, hl])
      · have hname : ¬ name = some cpe := by
          have hmem : cvrf_branch.mk ty name pn subs ∈
              cvrf_branch_dfs_leaves (.mk ty name pn subs) := by
            rw [cvrf_branch_dfs_leaves]; simp [hty]
          simpa [cvrf_branch.branch_name] using h _ hmem
        simp [get_cvrf_product_id_from_branch, hty, hname]

theorem get_cvrf_product_id_from_subbranches_none (cpe : String) :
    ∀ (bs : List cvrf_branch),
      (∀ l ∈ cvrf_forest_dfs_leaves bs, ¬ l.branch_name = some cpe) →
      get_cvrf_product_id_from_subbranches bs cpe = none
  | [] => fun _ => rfl
  | b :: rest => fun h => by
      have hb := get_cvrf_product_id_from_branch_none cpe b (fun l hl =>
        h l (by rw [cvrf_forest_dfs_leaves]; simp [hl]))
      have hr := get_cvrf_product_id_from_subbranches_none cpe rest (fun l hl =>
        h l (by rw [cvrf_forest_dfs_leaves]; simp [hl]))
      simp [get_cvrf_product_id_from_subbranches, hb, hr]

end

mutual

theorem get_cvrf_product_id_from_branch_spec (cpe : String) :
    ∀ (b : cvrf_branch),
      (∀ l ∈ cvrf_branch_dfs_leaves b, (l.product_name).product_id.isSome = true) →
      get_cvrf_product_id_from_branch b cpe =
        ((cvrf_branch_dfs_leaves b).find? (fun l => l.branch_name = some cpe)).bind
          (fun l => (l.product_name).product_id)
  | .mk ty name pn subs => fun h => by
      by_cases hty : ty = cvrf_branch_type_t.CVRF_BRANCH_PRODUCT_FAMILY
      · rw [get_cvrf_product_id_from_branch, cvrf_branch_dfs_leaves]
        simp only [hty, if_true]
        exact get_cvrf_product_id_from_subbranches_spec cpe subs (by
          intro l hl
          apply h l
          rw [cvrf_branch_dfs_leaves]
          simp [hty, hl])
      · by_cases hname : name = some cpe
        · simp [get_cvrf_product_id_from_branch, cvrf_branch_dfs_leaves, hty, hname,
                List.find?, cvrf_branch.branch_name, cvrf_branch.product_name]
        · simp [get_cvrf_product_id_from_branch, cvrf_branch_dfs_leaves, hty, hname,
                List.find?, cvrf_branch.branch_name]

theorem get_cvrf_product_id_from_subbranches_spec (cpe : String) :
    ∀ (bs : List cvrf_branch),
      (∀ l ∈ cvrf_forest_dfs_leaves bs, (l.product_name).product_id.isSome = true) →
      get_cvrf_product_id_from_subbranches bs cpe =
        ((cvrf_forest_dfs_leaves bs).find? (fun l => l.branch_name = some cpe)).bind
          (fun l => (l.product_name).product_id)
  | [] => fun _ => rfl
  | b :: rest => fun h => by
      have hb := get_cvrf_product_id_from_branch_spec cpe b (fun l hl =>
        h l (by rw [cvrf_forest_dfs_leaves]; simp [hl]))
      have hr := get_cvrf_product_id_from_subbranches_spec cpe rest (fun l hl =>
        h l (by rw [cvrf_forest_dfs_leaves]; simp [hl]))
      rw [get_cvrf_product_id_from_subbranches, hb, hr, cvrf_forest_dfs_leaves,
          List.find?_append]
      cases hfind : (cvrf_branch_dfs_leaves b).find? (fun l => l.branch_name = some cpe) with
      | none => simp [Option.or]
      | some l =>
        have hl : l ∈ cvrf_branch_dfs_leaves b := List.mem_of_find?_eq_some hfind
        have hs : (l.product_name).product_id.isSome = true := h l (by
          rw [cvrf_forest_dfs_leaves]; simp; exact Or.inl hl)
        obtain ⟨pid, hpid⟩ := Option.isSome_iff_exists.mp hs
        simp [Option.or, hpid]

end

/- ------------------------------------------------------------------ -/
/- Claim C2.                                                           -/
/- ------------------------------------------------------------------ -/

/-- Claim C2: for every ProductTree in which the platform search yields a
matched product id (a Leaf branch carries the platform name) and whose
Relationship list contains at least one Relationship whose relates-to
reference equals the matched id, cvrf_product_tree_filter_by_cpe returns
0 and replaces the Relationship list with exactly the Relationships of
the original list whose relates-to reference equals the matched id, in
their original order.  The hypothesis that all relates-to references are
present excludes inputs on which the C strcmp would read a NULL pointer. -/
theorem cvrf_product_tree_filter_by_cpe_success (tree : cvrf_product_tree)
    (cpe pid : String)
    (hsearch : get_cvrf_product_id_from_cpe tree cpe = some pid)
    (hrefs : ∀ r ∈ tree.relationships, r.relates_to_ref ≠ none)
    (hex : ∃ r ∈ tree.relationships, r.relates_to_ref = some pid) :
    cvrf_product_tree_filter_by_cpe tree cpe =
      (0, { tree with
              relationships :=
                tree.relationships.filter (fun r => r.relates_to_ref = some pid) }) := by
  obtain ⟨r, hr, hrel⟩ := hex
  have hmem : r ∈ tree.relationships.filter (fun r => r.relates_to_ref = some pid) :=
    List.mem_filter.mpr ⟨hr, by simp [hrel]⟩
  have hne : tree.relationships.filter (fun r => r.relates_to_ref = some pid) ≠ [] :=
    List.ne_nil_of_mem hmem
  simp only [cvrf_product_tree_filter_by_cpe, hsearch, cvrf_relationship_clone_map_eq]
  rw [if_neg (by simpa [List.length_eq_zero] using hne)]

def c2_leaf_a : cvrf_branch :=
  .mk .CVRF_BRANCH_PRODUCT_NAME (some "platform-a")
    { product_id := some "p1", cpe := some "Platform A" } []

def c2_leaf_b : cvrf_branch :=
  .mk .CVRF_BRANCH_PRODUCT_NAME (some "platform-b")
    { product_id := some "p2", cpe := some "Platform B" } []

def c2_rel_a : cvrf_relationship :=
  { product_reference := some "cpe:/o:vendor:platform-a:pkgname-1.0-1"
    relation_type := .CVRF_RELATIONSHIP_DEFAULT_COMPONENT_OF
    relates_to_ref := some "p1"
    product_name := { product_id := some "cpe:/o:vendor:platform-a:pkgname-1.0-1"
                      cpe := some "pkgname" } }

def c2_rel_b : cvrf_relationship :=
  { product_reference := some "cpe:/o:vendor:platform-b:other-2.0-1"
    relation_type := .CVRF_RELATIONSHIP_DEFAULT_COMPONENT_OF
    relates_to_ref := some "p2"
    product_name := { product_id := some "cpe:/o:vendor:platform-b:other-2.0-1"
                      cpe := some "other" } }

def c2_tree : cvrf_product_tree :=
  { cvrf_product_tree_new with
      branches := [c2_leaf_a, c2_leaf_b]
      relationships := [c2_rel_a, c2_rel_b] }

/-- Witness for claim C2 at the spec example: filtering by platform-a
keeps exactly the one Relationship that relates to p1. -/
theorem cvrf_product_tree_filter_by_cpe_success_witness :
    cvrf_product_tree_filter_by_cpe c2_tree "platform-a" =
      (0, { c2_tree with
              relationships :=
                c2_tree.relationships.filter
                  (fun r => r.relates_to_ref = some "p1") }) :=
  cvrf_product_tree_filter_by_cpe_success c2_tree "platform-a" "p1"
    (by decide) (by decide) (by decide)

/- ------------------------------------------------------------------ -/
/- Claim C3.                                                           -/
/- ------------------------------------------------------------------ -/

/-- Claim C3: for every Model and platform identifier P such that no Leaf
branch of the product tree is named P, cvrf_model_filter_by_cpe returns
-1 and the whole Model (tree, relationships, and every ProductStatus
list of every Vulnerability) is unchanged.  The hypothesis that leaf
names are present excludes inputs on which the C strcmp would read a
NULL branch name. -/
theorem cvrf_model_filter_by_cpe_no_match (model : cvrf_model) (P : String)
    (hnames : ∀ l ∈ cvrf_forest_dfs_leaves model.tree.branches, l.branch_name ≠ none)
    (h : cvrf_product_tree_has_leaf_named model.tree P = false) :
    cvrf_model_filter_by_cpe model P = (-1, model) := by
  have hno : ∀ l ∈ cvrf_forest_dfs_leaves model.tree.branches,
      ¬ l.branch_name = some P := by
    intro l hl
    have := List.any_eq_false.mp h l hl
    simpa using this
  have hsearch : get_cvrf_product_id_from_cpe model.tree P = none :=
    get_cvrf_product_id_from_subbranches_none P model.tree.branches hno
  simp [cvrf_model_filter_by_cpe, hsearch]

def c3_model : cvrf_model :=
  { doc_title := some "Advisory", doc_type := none, document := cvrf_document_new
    tree := { cvrf_product_tree_new with
                branches := [.mk .CVRF_BRANCH_PRODUCT_NAME (some "platform-b")
                  { product_id := some "p2", cpe := some "Platform B" } []]
                relationships := [{ product_reference := some "q"
                                    relation_type := .CVRF_RELATIONSHIP_DEFAULT_COMPONENT_OF
                                    relates_to_ref := some "p2"
                                    product_name := { product_id := some "q", cpe := none } }] }
    vulnerabilities := [{ cvrf_vulnerability_new with
                            product_statuses := [{ type := .CVRF_PRODUCT_STATUS_FIXED
                                                   product_ids := ["p2:pkg-0:1-1"] }] }] }

/-- Witness for claim C3: no leaf is named platform-a, so the filter fails
and returns the model unchanged. -/
theorem cvrf_model_filter_by_cpe_no_match_witness :
    cvrf_model_filter_by_cpe c3_model "platform-a" = (-1, c3_model) :=
  cvrf_model_filter_by_cpe_no_match c3_model "platform-a" (by decide) (by decide)

/- ------------------------------------------------------------------ -/
/- Claim C4.                                                           -/
/- ------------------------------------------------------------------ -/

def c4_tree : cvrf_product_tree :=
  { cvrf_product_tree_new with
      branches := [.mk .CVRF_BRANCH_PRODUCT_NAME (some "platform-a")
        { product_id := some "p1", cpe := some "Platform A" } []]
      relationships := [{ product_reference := some "cpe:/o:vendor:platform-b:other-2.0-1"
                          relation_type := .CVRF_RELATIONSHIP_DEFAULT_COMPONENT_OF
                          relates_to_ref := some "p2"
                          product_name := { product_id := some "cpe:/o:vendor:platform-b:other-2.0-1"
                                            cpe := some "other" } }] }

/-- Claim C4 counterexample: a tree whose leaf matches platform-a (matched
id p1) but in which no Relationship relates to p1.  The filter does
return -1, but contrary to the claim the Relationship list afterwards is
not empty: the emptied filtered copy is discarded and the original
one-element list is retained. -/
theorem cvrf_product_tree_filter_empty_counterexample :
    get_cvrf_product_id_from_cpe c4_tree "platform-a" = some "p1" ∧
    c4_tree.relationships.filter (fun r => r.relates_to_ref = some "p1") = [] ∧
    (cvrf_product_tree_filter_by_cpe c4_tree "platform-a").1 = -1 ∧
    (cvrf_product_tree_filter_by_cpe c4_tree "platform-a").2.relationships ≠ [] := by
  refine ⟨by decide, by decide, by decide, by decide⟩

/-- Claim C4 as amended: when the Leaf matches but no Relationship
relates to the matched product id, the filter returns -1 and the tree is
left unchanged - the original Relationship list is retained, not
emptied.  The hypothesis that all relates-to references are present
excludes inputs on which the C strcmp would read a NULL pointer. -/
theorem cvrf_product_tree_filter_by_cpe_empty (tree : cvrf_product_tree)
    (cpe pid : String)
    (hsearch : get_cvrf_product_id_from_cpe tree cpe = some pid)
    (hrefs : ∀ r ∈ tree.relationships, r.relates_to_ref ≠ none)
    (hempty : tree.relationships.filter (fun r => r.relates_to_ref = some pid) = []) :
    cvrf_product_tree_filter_by_cpe tree cpe = (-1, tree) := by
  simp only [cvrf_product_tree_filter_by_cpe, hsearch, cvrf_relationship_clone_map_eq]
  rw [if_pos (by simp [hempty])]

/-- Witness for the amended claim C4 at the counterexample tree. -/
theorem cvrf_product_tree_filter_by_cpe_empty_witness :
    cvrf_product_tree_filter_by_cpe c4_tree "platform-a" = (-1, c4_tree) :=
  cvrf_product_tree_filter_by_cpe_empty c4_tree "platform-a" "p1"
    (by decide) (by decide) (by decide)

/- ------------------------------------------------------------------ -/
/- Claim C7.                                                           -/
/- ------------------------------------------------------------------ -/

/-- Claim C7: the platform search is a depth-first traversal of the branch
forest in document order comparing each Leaf name to the identifier by
exact string equality and short-circuiting on the first success: it
returns the product id of the first matching leaf in depth-first
document order (List.find? over the document-order leaf list).  The
hypotheses reflect the documented data-model invariant that a Leaf
always carries a ProductName with its product id, and exclude the NULL
branch names on which the C strcmp would be undefined. -/
theorem get_cvrf_product_id_from_cpe_first_match (tree : cvrf_product_tree)
    (cpe : String)
    (hnames : ∀ l ∈ cvrf_forest_dfs_leaves tree.branches, l.branch_name ≠ none)
    (hids : ∀ l ∈ cvrf_forest_dfs_leaves tree.branches,
      (l.product_name).product_id.isSome = true) :
    get_cvrf_product_id_from_cpe tree cpe =
      ((cvrf_forest_dfs_leaves tree.branches).find?
          (fun l => l.branch_name = some cpe)).bind
        (fun l => (l.product_name).product_id) :=
  get_cvrf_product_id_from_subbranches_spec cpe tree.branches hids

def c7_tree : cvrf_product_tree :=
  { cvrf_product_tree_new with
      branches := [.mk .CVRF_BRANCH_PRODUCT_FAMILY (some "Family")
                     { product_id := none, cpe := none }
                     [.mk .CVRF_BRANCH_PRODUCT_NAME (some "platform-a")
                        { product_id := some "p1", cpe := some "Platform A" } []],
                   .mk .CVRF_BRANCH_PRODUCT_NAME (some "platform-a")
                     { product_id := some "p2", cpe := some "Platform A again" } []] }

/-- Witness for claim C7: with two leaves both named platform-a, the
search deterministically returns the product id of the one earlier in
document order (the one nested in the family branch). -/
theorem get_cvrf_product_id_from_cpe_first_match_witness :
    (get_cvrf_product_id_from_cpe c7_tree "platform-a" =
      ((cvrf_forest_dfs_leaves c7_tree.branches).find?
          (fun l => l.branch_name = some "platform-a")).bind
        (fun l => (l.product_name).product_id)) ∧
    get_cvrf_product_id_from_cpe c7_tree "platform-a" = some "p1" :=
  ⟨get_cvrf_product_id_from_cpe_first_match c7_tree "platform-a" (by decide) (by decide),
   by decide⟩

/- ------------------------------------------------------------------ -/
/- Claim C5.                                                           -/
/- ------------------------------------------------------------------ -/

/-- Claim C5 counterexample: decomposing the spec example identifier with
the platform prefix cpe:/o:vendor:platform-a does NOT yield package name
openssl and EVR 1.0.2k-16.el7.  The C splits at the first colon of the
whole identifier (after the scheme prefix cpe), not at the colon that
follows the platform prefix, so the scan for the next colon stops inside
the prefix. -/
theorem parse_rpm_attributes_counterexample :
    parse_rpm_attributes_from_cvrf_product_id
        "cpe:/o:vendor:platform-a:openssl-1.0.2k-16.el7" ≠
      { rpm_name := "openssl", evr_format := "1.0.2k-16.el7" } := by
  decide

/-- Claim C5 as amended: on that identifier the decomposition yields the
empty package name and the EVR string o:vendor:platform-a:openssl-1.0.2k-16.el7,
because the code drops everything up to and including the FIRST colon,
then finds the next colon at index 2 of the remainder, truncates the
package name at index 0 and starts the EVR at index 1. -/
theorem parse_rpm_attributes_amended :
    parse_rpm_attributes_from_cvrf_product_id
        "cpe:/o:vendor:platform-a:openssl-1.0.2k-16.el7" =
      { rpm_name := ""
        evr_format := "o:vendor:platform-a:openssl-1.0.2k-16.el7" } := by
  decide

/-- On the two-segment identifiers the code actually receives (platform
prefix without inner colons, then name-epoch:version-release), the
decomposition strips the dash and epoch digit from the package name and
keeps epoch:version-release as the EVR.  This supporting evaluation
documents the intended shape; it is referenced by no claim status. -/
theorem parse_rpm_attributes_two_segment_example :
    parse_rpm_attributes_from_cvrf_product_id "platform-a:openssl-0:1.0.2k-16.el7" =
      { rpm_name := "openssl", evr_format := "0:1.0.2k-16.el7" } := by
  decide

/- ------------------------------------------------------------------ -/
/- Claim C8.                                                           -/
/- ------------------------------------------------------------------ -/

theorem cvrf_construct_definition_loop_length (product_ids : List String) :
    ∀ start : Nat,
      (cvrf_construct_definition_loop product_ids start).length = product_ids.length := by
  induction product_ids with
  | nil => intro start; rfl
  | cons p rest ih =>
      intro start
      simp [cvrf_construct_definition_loop, ih]

theorem cvrf_construct_definition_loop_get (product_ids : List String) :
    ∀ (start k : Nat) (hk : k < product_ids.length)
      (hk2 : k < (cvrf_construct_definition_loop product_ids start).length),
      (cvrf_construct_definition_loop product_ids start).get ⟨k, hk2⟩ =
        create_oval_definition_for_cvrf_rpm_attributes
          (parse_rpm_attributes_from_cvrf_product_id (product_ids.get ⟨k, hk⟩))
          (start + k) := by
  induction product_ids with
  | nil => intro start k hk; exact absurd hk (Nat.not_lt_zero k)
  | cons p rest ih =>
      intro start k hk hk2
      cases k with
      | zero => rfl
      | succ k =>
          have hk3 : k < rest.length := Nat.lt_of_succ_lt_succ hk
          have hk4 : k < (cvrf_construct_definition_loop rest (start + 1)).length := by
            rw [cvrf_construct_definition_loop_length]; exact hk3
          have := ih (start + 1) k hk3 hk4
          simpa [cvrf_construct_definition_loop, Nat.add_assoc, Nat.add_comm 1 k] using this

/-- Claim C8: for a session whose product id list holds the surviving
identifiers, the k-th identifier (zero-based k, claim index k+1) yields
exactly one object, state, test and definition record whose four
identifiers are the strings oval:org.open-scap.unix:obj:(k+1),
ste:(k+1), tst:(k+1), def:(k+1); the record list has one record per
identifier, so within one pass the indices are exactly 1..N, strictly
increasing, with no gaps and no reuse. -/
theorem cvrf_session_construct_definition_model_ids (product_ids : List String)
    (k : Nat) (hk : k < product_ids.length) :
    (cvrf_session_construct_definition_model product_ids).length = product_ids.length ∧
    ∃ hk2 : k < (cvrf_session_construct_definition_model product_ids).length,
      ((cvrf_session_construct_definition_model product_ids).get ⟨k, hk2⟩).object_id =
          "oval:org.open-scap.unix:obj:" ++ toString (k + 1) ∧
      ((cvrf_session_construct_definition_model product_ids).get ⟨k, hk2⟩).state_id =
          "oval:org.open-scap.unix:ste:" ++ toString (k + 1) ∧
      ((cvrf_session_construct_definition_model product_ids).get ⟨k, hk2⟩).test_id =
          "oval:org.open-scap.unix:tst:" ++ toString (k + 1) ∧
      ((cvrf_session_construct_definition_model product_ids).get ⟨k, hk2⟩).definition_id =
          "oval:org.open-scap.unix:def:" ++ toString (k + 1) := by
  have hlen : (cvrf_session_construct_definition_model product_ids).length =
      product_ids.length := cvrf_construct_definition_loop_length product_ids 1
  refine ⟨hlen, ?_⟩
  have hk2 : k < (cvrf_session_construct_definition_model product_ids).length := by
    rw [hlen]; exact hk
  refine ⟨hk2, ?_, ?_, ?_, ?_⟩ <;>
    · have hget := cvrf_construct_definition_loop_get product_ids 1 k hk hk2
      rw [Nat.add_comm 1 k] at hget
      have hget2 : (cvrf_session_construct_definition_model product_ids).get ⟨k, hk2⟩ =
          create_oval_definition_for_cvrf_rpm_attributes
            (parse_rpm_attributes_from_cvrf_product_id (product_ids.get ⟨k, hk⟩))
            (k + 1) := hget
      rw [hget2]
      rfl

def c8_product_ids : List String :=
  ["platform-a:openssl-0:1.0.2k-16.el7",
   "platform-a:kernel-0:3.10.0-693.el7",
   "platform-a:nss-0:3.28.4-15.el7"]

/-- Witness for claim C8 at three surviving identifiers: the third record
carries exactly the four index-3 identifiers, and across the pass the
object ids are obj:1, obj:2, obj:3 with no gap or reuse. -/
theorem cvrf_session_construct_definition_model_ids_witness :
    (2 < c8_product_ids.length ∧
      ((cvrf_session_construct_definition_model c8_product_ids).length =
          c8_product_ids.length ∧
        ∃ hk2 : 2 < (cvrf_session_construct_definition_model c8_product_ids).length,
          ((cvrf_session_construct_definition_model c8_product_ids).get ⟨2, hk2⟩).object_id =
              "oval:org.open-scap.unix:obj:" ++ toString (2 + 1) ∧
          ((cvrf_session_construct_definition_model c8_product_ids).get ⟨2, hk2⟩).state_id =
              "oval:org.open-scap.unix:ste:" ++ toString (2 + 1) ∧
          ((cvrf_session_construct_definition_model c8_product_ids).get ⟨2, hk2⟩).test_id =
              "oval:org.open-scap.unix:tst:" ++ toString (2 + 1) ∧
          ((cvrf_session_construct_definition_model c8_product_ids).get ⟨2, hk2⟩).definition_id =
              "oval:org.open-scap.unix:def:" ++ toString (2 + 1))) ∧
    (cvrf_session_construct_definition_model c8_product_ids).map
        (fun r => r.object_id) =
      ["oval:org.open-scap.unix:obj:1", "oval:org.open-scap.unix:obj:2",
       "oval:org.open-scap.unix:obj:3"] :=
  ⟨⟨by decide, cvrf_session_construct_definition_model_ids c8_product_ids 2 (by decide)⟩,
   by decide⟩

/- ------------------------------------------------------------------ -/
/- Claim C6.                                                           -/
/- ------------------------------------------------------------------ -/

def c6_vuln : cvrf_vulnerability :=
  { cvrf_vulnerability_new with
      product_statuses :=
        [{ type := .CVRF_PRODUCT_STATUS_FIXED
           product_ids := ["p1:openssl-0:1.0.2k-16.el7"] },
         { type := .CVRF_PRODUCT_STATUS_KNOWN_AFFECTED
           product_ids := ["p1:kernel-0:3.10.0-693.el7"] }] }

def c6_vuln_second_empty : cvrf_vulnerability :=
  { cvrf_vulnerability_new with
      product_statuses :=
        [{ type := .CVRF_PRODUCT_STATUS_FIXED
           product_ids := ["p1:openssl-0:1.0.2k-16.el7"] },
         { type := .CVRF_PRODUCT_STATUS_KNOWN_AFFECTED
           product_ids := ["q:unrelated-0:1-1"] }] }

/-- Claim C6 counterexample: the per-vulnerability filter does not narrow
the ProductStatus entries independently.  With two entries each holding
one matching id, both entries end up holding the two-element
concatenation of all matches (the C shares one filtered_ids stringlist
across the entries), which differs from the claimed per-entry
narrowing.  And when the second entry has no matching id, the filter
still returns 0, not the claimed -1: the shared list already holds the
first entry matches, so the emptiness test cannot fire after the first
entry. -/
theorem cvrf_vulnerability_filter_independent_counterexample :
    ((cvrf_vulnerability_filter_by_product c6_vuln "p1").2.product_statuses.map
        (fun stat => stat.product_ids) =
      [["p1:openssl-0:1.0.2k-16.el7", "p1:kernel-0:3.10.0-693.el7"],
       ["p1:openssl-0:1.0.2k-16.el7", "p1:kernel-0:3.10.0-693.el7"]]) ∧
    ((cvrf_vulnerability_filter_by_product c6_vuln "p1").2.product_statuses.map
        (fun stat => stat.product_ids) ≠
      c6_vuln.product_statuses.map
        (fun stat => stat.product_ids.filter (fun x => oscap_str_startswith x "p1"))) ∧
    (c6_vuln_second_empty.product_statuses.map
        (cvrf_product_status_matching_ids "p1") =
      [["p1:openssl-0:1.0.2k-16.el7"], []]) ∧
    (cvrf_vulnerability_filter_by_product c6_vuln_second_empty "p1").1 = 0 := by
  refine ⟨by decide, by decide, by decide, by decide⟩

/-- Claim C6 as amended: for every Vulnerability and matched product id,
the filter accumulates the ids having the matched id as a string prefix
across ALL ProductStatus entries into one shared list; on success every
entry ends up holding that same concatenated list.  It returns -1, with
the Vulnerability unchanged, exactly when the entry list is non-empty
and its FIRST entry contributes no matching id (a later entry that
narrows to nothing does not cause failure).  The per-vulnerability
return value is discarded by cvrf_model_filter_by_cpe, which filters
every vulnerability and returns 0 whenever the tree filter succeeded. -/
theorem cvrf_vulnerability_filter_shared_list (model : cvrf_model) (cpe pid : String)
    (hsearch : get_cvrf_product_id_from_cpe model.tree cpe = some pid)
    (htree : (cvrf_product_tree_filter_by_cpe model.tree cpe).1 = 0) :
    (cvrf_model_filter_by_cpe model cpe).1 = 0 ∧
    ((cvrf_model_filter_by_cpe model cpe).2.vulnerabilities =
      model.vulnerabilities.map
        (fun vuln => (cvrf_vulnerability_filter_by_product vuln pid).2)) ∧
    (∀ vuln : cvrf_vulnerability,
      ((cvrf_vulnerability_filter_by_product vuln pid).1 = -1 ↔
        ∃ first rest, vuln.product_statuses = first :: rest ∧
          cvrf_product_status_matching_ids pid first = [])) ∧
    (∀ vuln : cvrf_vulnerability,
      (cvrf_vulnerability_filter_by_product vuln pid).1 = -1 →
        (cvrf_vulnerability_filter_by_product vuln pid).2 = vuln) ∧
    (∀ vuln : cvrf_vulnerability,
      (cvrf_vulnerability_filter_by_product vuln pid).1 = 0 →
        (cvrf_vulnerability_filter_by_product vuln pid).2.product_statuses =
          vuln.product_statuses.map
            (fun stat =>
              { stat with
                  product_ids :=
                    (vuln.product_statuses.map
                        (cvrf_product_status_matching_ids pid)).flatten })) := by
  refine ⟨?_, ?_, ?_, ?_, ?_⟩
  · simp only [cvrf_model_filter_by_cpe, hsearch]
    simp [htree]
  · simp only [cvrf_model_filter_by_cpe, hsearch]
    simp [htree]
  · intro vuln
    constructor
    · intro hret
      rcases hps : vuln.product_statuses with _ | ⟨first, rest⟩
      · simp only [cvrf_vulnerability_filter_by_product, hps] at hret
        simp at hret
      · simp only [cvrf_vulnerability_filter_by_product, hps] at hret
        by_cases hempty : cvrf_product_status_matching_ids pid first = []
        · exact ⟨first, rest, rfl, hempty⟩
        · rw [if_neg hempty] at hret
          simp at hret
    · rintro ⟨first, rest, hps, hempty⟩
      simp [cvrf_vulnerability_filter_by_product, hps, hempty]
  · intro vuln hret
    rcases hps : vuln.product_statuses with _ | ⟨first, rest⟩
    · simp only [cvrf_vulnerability_filter_by_product, hps]
    · simp only [cvrf_vulnerability_filter_by_product, hps] at hret ⊢
      by_cases hempty : cvrf_product_status_matching_ids pid first = []
      · rw [if_pos hempty]
      · rw [if_neg hempty] at hret
        simp at hret
  · intro vuln hret
    rcases hps : vuln.product_statuses with _ | ⟨first, rest⟩
    · simp only [cvrf_vulnerability_filter_by_product, hps]
      simp [hps]
    · simp only [cvrf_vulnerability_filter_by_product, hps] at hret ⊢
      by_cases hempty : cvrf_product_status_matching_ids pid first = []
      · rw [if_pos hempty] at hret
        simp at hret
      · rw [if_neg hempty]

def c6_model : cvrf_model :=
  { doc_title := none, doc_type := none, document := cvrf_document_new
    tree := { cvrf_product_tree_new with
                branches := [.mk .CVRF_BRANCH_PRODUCT_NAME (some "platform-a")
                  { product_id := some "p1", cpe := some "Platform A" } []]
                relationships := [{ product_reference := some "p1:openssl-0:1.0.2k-16.el7"
                                    relation_type := .CVRF_RELATIONSHIP_DEFAULT_COMPONENT_OF
                                    relates_to_ref := some "p1"
                                    product_name := { product_id := some "p1:openssl-0:1.0.2k-16.el7"
                                                      cpe := some "openssl" } }] }
    vulnerabilities := [c6_vuln, c6_vuln_second_empty] }

/-- Witness for the amended claim C6 at a concrete model holding the two
counterexample vulnerabilities: the model filter succeeds and both
vulnerabilities are rewritten with the shared concatenated lists. -/
theorem cvrf_vulnerability_filter_shared_list_witness :
    (cvrf_model_filter_by_cpe c6_model "platform-a").1 = 0 ∧
    ((cvrf_model_filter_by_cpe c6_model "platform-a").2.vulnerabilities =
      c6_model.vulnerabilities.map
        (fun vuln => (cvrf_vulnerability_filter_by_product vuln "p1").2)) :=
  ⟨(cvrf_vulnerability_filter_shared_list c6_model "platform-a" "p1"
      (by decide) (by decide)).1,
   (cvrf_vulnerability_filter_shared_list c6_model "platform-a" "p1"
      (by decide) (by decide)).2.1⟩

/- ------------------------------------------------------------------ -/
/- Claim C10.                                                          -/
/- ------------------------------------------------------------------ -/

def c10_vuln : cvrf_vulnerability :=
  { cvrf_vulnerability_new with
      ordinal := 1
      title := some "Title"
      system_id := some "RHSA-2017:0001"
      system_name := some "Red Hat Security Advisory"
      cve_id := some "CVE-2017-0001"
      discovery_date := some "2017-01-01" }

def c10_model : cvrf_model :=
  { doc_title := some "Advisory", doc_type := none, document := cvrf_document_new
    tree := cvrf_product_tree_new
    vulnerabilities := [c10_vuln] }

/-- Claim C10 (code bug evaluation): cvrf_vulnerability_clone does not
duplicate every scalar field with its original value.  At a concrete
vulnerability whose system_id, system_name and cve_id differ, the clone
ends up with system_id holding the system_name value (the C assigns
clone system_id twice, the second time from system_name), and its
system_name and cve_id hold whatever the uninitialized malloc memory
contained, independent of the original; through cvrf_model_clone the
same corrupted vulnerability appears in the cloned model. -/
theorem cvrf_vulnerability_clone_misassignment
    (uninit_system_name uninit_cve_id : Option String) :
    (cvrf_vulnerability_clone uninit_system_name uninit_cve_id c10_vuln).system_id =
        some "Red Hat Security Advisory" ∧
    c10_vuln.system_id = some "RHSA-2017:0001" ∧
    (cvrf_vulnerability_clone uninit_system_name uninit_cve_id c10_vuln).system_name =
        uninit_system_name ∧
    (cvrf_vulnerability_clone uninit_system_name uninit_cve_id c10_vuln).cve_id =
        uninit_cve_id ∧
    ((cvrf_model_clone uninit_system_name uninit_cve_id c10_model).vulnerabilities.map
        (fun v => v.system_id) = [some "Red Hat Security Advisory"]) :=
  ⟨rfl, rfl, rfl, rfl, rfl⟩

/- ------------------------------------------------------------------ -/
/- Claim C9.                                                           -/
/- ------------------------------------------------------------------ -/

def c9_remediation : cvrf_remediation :=
  { type := .CVRF_REMEDIATION_VENDOR_FIX
    date := some "2017-03-01"
    description := some "Update the package."
    url := none
    entitlement := none
    product_ids := []
    group_ids := [] }

def c9_remediation_xml : Xml :=
  Xml.elem "Remediation" [("Type", "Vendor Fix"), ("Date", "2017-03-01")] none
    [Xml.elem "Description" [] (some "Update the package.") []]

/-- Claim C9 (code bug evaluation): the round trip is not lossless for
populated fields.  A well-formed Remediation element carrying a Date
attribute parses into a remediation whose date is present, but
cvrf_remediation_to_dom never emits a Date attribute, so re-parsing the
serialized node yields the same remediation with its date erased.  Hence
parse(serialize(model)) differs from the original model on any model
holding a dated remediation, contradicting the claimed equality up to
absent-optional and empty-collection normalization. -/
theorem cvrf_remediation_date_round_trip_loss :
    cvrf_remediation_parse c9_remediation_xml = c9_remediation ∧
    (cvrf_remediation_to_dom c9_remediation).attrs.lookup "Date" = none ∧
    cvrf_remediation_parse (cvrf_remediation_to_dom c9_remediation) =
      { c9_remediation with date := none } ∧
    { c9_remediation with date := none } ≠ c9_remediation := by
  refine ⟨by decide, by decide, by decide, by decide⟩

/- ------------------------------------------------------------------ -/
/- Claim C1.                                                           -/
/- ------------------------------------------------------------------ -/

/-- Claim C1: for every session, every vulnerability of its model and
every matched product id of its product id list, the results assembler
emits (inside the trailing Results child of that vulnerability node) one
Result entry per product id, whose VulnerabilityStatus text is the
literal FIXED exactly when the product id occurs, by exact string
equality, in the product id list of at least one ProductStatus entry of
that vulnerability - regardless of the entry status category, which the
membership test never consults - and the literal VULNERABLE otherwise;
cvrf_product_vulnerability_fixed decides the membership. -/
theorem cvrf_model_results_to_dom_status (s : cvrf_session) (k j : Nat)
    (hk : k < s.model.vulnerabilities.length) (hj : j < s.product_ids.length) :
    ((cvrf_model_results_to_dom s).children =
      cvrf_model_results_header s ++
        s.model.vulnerabilities.map (cvrf_vulnerability_results_to_dom s)) ∧
    ((cvrf_vulnerability_results_to_dom s (s.model.vulnerabilities.get ⟨k, hk⟩)).children =
      (cvrf_vulnerability_to_dom (s.model.vulnerabilities.get ⟨k, hk⟩)).children ++
        [Xml.elem "Results" [] none
          (s.product_ids.map (cvrf_result_to_dom (s.model.vulnerabilities.get ⟨k, hk⟩)))]) ∧
    (∃ st : String,
      cvrf_result_to_dom (s.model.vulnerabilities.get ⟨k, hk⟩) (s.product_ids.get ⟨j, hj⟩) =
        Xml.elem "Result" [] none
          [Xml.elem "ProductID" [] (some (s.product_ids.get ⟨j, hj⟩)) [],
           Xml.elem "VulnerabilityStatus" [] (some st) []] ∧
      ((st = "FIXED") ↔
        ∃ stat ∈ (s.model.vulnerabilities.get ⟨k, hk⟩).product_statuses,
          s.product_ids.get ⟨j, hj⟩ ∈ stat.product_ids) ∧
      (st = "FIXED" ∨ st = "VULNERABLE")) := by
  refine ⟨rfl, rfl, ?_⟩
  set v := s.model.vulnerabilities.get ⟨k, hk⟩ with hv
  set p := s.product_ids.get ⟨j, hj⟩ with hp
  refine ⟨if cvrf_product_vulnerability_fixed v p then "FIXED" else "VULNERABLE",
          ?_, ?_, ?_⟩
  · by_cases hf : cvrf_product_vulnerability_fixed v p = true <;>
      simp [cvrf_result_to_dom, cvrf_element_add_child, cvrf_element_to_dom, hf]
  · by_cases hf : cvrf_product_vulnerability_fixed v p = true
    · rw [if_pos hf]
      simp only [cvrf_product_vulnerability_fixed, List.any_eq_true,
        decide_eq_true_eq] at hf
      constructor
      · intro _
        obtain ⟨stat, hstat, id, hid, hidp⟩ := hf
        exact ⟨stat, hstat, hidp ▸ hid⟩
      · intro _
        rfl
    · rw [if_neg hf]
      constructor
      · intro h
        exact absurd h (by decide)
      · rintro ⟨stat, hstat, hmem⟩
        exfalso
        apply hf
        simp only [cvrf_product_vulnerability_fixed, List.any_eq_true,
          decide_eq_true_eq]
        exact ⟨stat, hstat, p, hmem, rfl⟩
  · by_cases hf : cvrf_product_vulnerability_fixed v p = true
    · rw [if_pos hf]; exact Or.inl rfl
    · rw [if_neg hf]; exact Or.inr rfl

def c1_session : cvrf_session :=
  { model := { doc_title := some "Advisory"
               doc_type := some "Security Advisory"
               document := cvrf_document_new
               tree := cvrf_product_tree_new
               vulnerabilities :=
                 [{ cvrf_vulnerability_new with
                      ordinal := 1
                      product_statuses :=
                        [{ type := .CVRF_PRODUCT_STATUS_KNOWN_AFFECTED
                           product_ids := ["p1"] }] }] }
    os_name := some "platform-a"
    product_ids := ["p1", "p2"] }

/-- Witness for claim C1: in a session whose single vulnerability has one
ProductStatus (of the known-affected category) listing p1, and whose
matched ids are p1 and p2, the Result entry for p1 says FIXED (membership
in any category suffices) and the entry for p2 says VULNERABLE. -/
theorem cvrf_model_results_to_dom_status_witness :
    (∃ st : String,
      cvrf_result_to_dom (c1_session.model.vulnerabilities.get ⟨0, by decide⟩)
          (c1_session.product_ids.get ⟨0, by decide⟩) =
        Xml.elem "Result" [] none
          [Xml.elem "ProductID" []
            (some (c1_session.product_ids.get ⟨0, by decide⟩)) [],
           Xml.elem "VulnerabilityStatus" [] (some st) []] ∧
      ((st = "FIXED") ↔
        ∃ stat ∈ (c1_session.model.vulnerabilities.get ⟨0, by decide⟩).product_statuses,
          c1_session.product_ids.get ⟨0, by decide⟩ ∈ stat.product_ids) ∧
      (st = "FIXED" ∨ st = "VULNERABLE")) ∧
    cvrf_result_to_dom (c1_session.model.vulnerabilities.get ⟨0, by decide⟩) "p1" =
      Xml.elem "Result" [] none
        [Xml.elem "ProductID" [] (some "p1") [],
         Xml.elem "VulnerabilityStatus" [] (some "FIXED") []] ∧
    cvrf_result_to_dom (c1_session.model.vulnerabilities.get ⟨0, by decide⟩) "p2" =
      Xml.elem "Result" [] none
        [Xml.elem "ProductID" [] (some "p2") [],
         Xml.elem "VulnerabilityStatus" [] (some "VULNERABLE") []] :=
  ⟨(cvrf_model_results_to_dom_status c1_session 0 0 (by decide) (by decide)).2.2,
   rfl, rfl⟩
